import Mathlib

/-!
Shallow embedding of the RMACD policy decision engine
(`rmacd/models.py` and `rmacd/evaluator.py`).

Conventions of the embedding:
* Python `str`-enums become inductive types; the `.value` string of each
  enum member is given by an explicit `value` function.
* Pydantic models become structures.  Fields that the evaluator never
  reads (rate limits, audit requirements, approval authority, profile
  metadata, identifiers, `maintenance_windows`, `request_metadata`,
  escalation duration/cooldown metadata) are omitted: they cannot affect
  any decision.
* Python `Optional[X]` becomes `Option X`; Python truthiness of a list or
  dict (`if xs:`) is modelled as `Option` presence plus non-emptiness,
  and truthiness of a pydantic model as `Option` presence.
* Python dicts read by the evaluator become association lists with
  `List.lookup` (profile dicts have unique keys; only membership and
  single-key lookup are ever performed).
* Timestamps are absolute instants, integer seconds since the Unix
  epoch.  `datetime.astimezone(ZoneInfo(tz))` is modelled by an explicit
  timezone database `tzdb : String → Int` giving the UTC offset in
  seconds of a named zone; within one evaluation only a single instant
  is ever converted, so a per-call constant offset per zone name is
  exact.  Sub-second precision is not modelled.
* String-to-enum normalization at the API boundary is handled by the
  types; the remaining input validation (a 3D profile evaluated without
  a data classification) is an `Except.error`, mirroring the raised
  `ValueError`.
-/

/-- RMACD operations (`Operation` in `models.py`). -/
inductive Operation
  | R
  | M
  | A
  | C
  | D
deriving DecidableEq, Repr

/-- Wire value of an operation (the Python enum member value). -/
def Operation.value : Operation → String
  | .R => "R"
  | .M => "M"
  | .A => "A"
  | .C => "C"
  | .D => "D"

/-- PICR data classification tiers (`DataClassification` in `models.py`). -/
inductive DataClassification
  | public
  | internal
  | confidential
  | restricted
deriving DecidableEq, Repr

/-- Wire value of a data classification. -/
def DataClassification.value : DataClassification → String
  | .public => "public"
  | .internal => "internal"
  | .confidential => "confidential"
  | .restricted => "restricted"

/-- HITL autonomy levels (`AutonomyLevel` in `models.py`). -/
inductive AutonomyLevel
  | autonomous
  | logged
  | notification
  | approval
  | elevated_approval
  | prohibited
deriving DecidableEq, Repr

/-- Deployment environments (`Environment` in `models.py`). -/
inductive Environment
  | development
  | staging
  | production
  | disaster_recovery
  | sandbox
deriving DecidableEq, Repr

/-- Wire value of an environment. -/
def Environment.value : Environment → String
  | .development => "development"
  | .staging => "staging"
  | .production => "production"
  | .disaster_recovery => "disaster-recovery"
  | .sandbox => "sandbox"

/-- Emergency escalation trigger conditions (`TriggerCondition` in `models.py`). -/
inductive TriggerCondition
  | soc_declared_incident
  | automated_threat_detection
  | business_continuity_event
  | compliance_emergency
  | manual_authorization
deriving DecidableEq, Repr

/-- `AllowedHours` model: inclusive `HH:MM` time range strings. -/
structure AllowedHours where
  start : String
  «end» : String
deriving DecidableEq, Repr

/-- `TimeWindows` model (fields read by the evaluator). -/
structure TimeWindows where
  timezone : String := "UTC"
  allowed_days : Option (List String) := none
  allowed_hours : Option AllowedHours := none
  blackout_dates : Option (List String) := none
deriving DecidableEq, Repr

/-- `Constraints` model (fields read by the evaluator). -/
structure Constraints where
  environments : Option (List Environment) := none
  time_windows : Option TimeWindows := none
deriving DecidableEq, Repr

/-- `EmergencyEscalation2D` model (fields read by the evaluator). -/
structure EmergencyEscalation2D where
  enabled : Bool := false
  trigger_conditions : Option (List TriggerCondition) := none
  escalated_permissions : Option (List Operation) := none
deriving DecidableEq, Repr

/-- `EmergencyEscalation3D` model (fields read by the evaluator). -/
structure EmergencyEscalation3D where
  enabled : Bool := false
  trigger_conditions : Option (List TriggerCondition) := none
  escalated_permissions : Option (List (DataClassification × List Operation)) := none
deriving DecidableEq, Repr

/-- `Profile2D` model (fields read by the evaluator). -/
structure Profile2D where
  permissions : List Operation
  autonomy_overrides : Option (List (Operation × AutonomyLevel)) := none
  emergency_escalation : Option EmergencyEscalation2D := none
  constraints : Option Constraints := none
deriving DecidableEq, Repr

/-- `Profile3D` model (fields read by the evaluator).  Autonomy override
keys are composite `"classification.operation"` strings, as in the source. -/
structure Profile3D where
  permissions : List (DataClassification × List Operation)
  autonomy_overrides : Option (List (String × AutonomyLevel)) := none
  emergency_escalation : Option EmergencyEscalation3D := none
  constraints : Option Constraints := none
deriving DecidableEq, Repr

/-- The two profile shapes, tagged (`Union[Profile2D, Profile3D]` with
`isinstance` dispatch in the source). -/
inductive Profile
  | twoD (p : Profile2D)
  | threeD (p : Profile3D)
deriving DecidableEq, Repr

/-- `self._is_3d` in `PolicyEvaluator.__init__`. -/
def Profile.is3d : Profile → Bool
  | .twoD _ => false
  | .threeD _ => true

/-- Shared `constraints` accessor over both profile shapes. -/
def Profile.constraints : Profile → Option Constraints
  | .twoD p => p.constraints
  | .threeD p => p.constraints

/-- `EvaluationContext` model (fields read by the evaluator).  The
timestamp is an instant in integer seconds since the Unix epoch; the
Python default of "now" is a call-site concern and is not modelled. -/
structure EvaluationContext where
  timestamp : Int
  environment : Option Environment := none
  emergency_active : Bool := false
  emergency_trigger : Option TriggerCondition := none
deriving DecidableEq, Repr

/-- `PolicyDecision` model: the engine's sole output. -/
structure PolicyDecision where
  allowed : Bool
  operation : Operation
  data_classification : Option DataClassification := none
  autonomy_level : AutonomyLevel
  requires_approval : Bool
  requires_notification : Bool
  blocked_reason : Option String := none
  constraints_applied : List String := []
  emergency_mode : Bool := false
deriving DecidableEq, Repr

/-- Default autonomy matrix for 3D profiles (`DEFAULT_AUTONOMY_3D` in
`evaluator.py`), an association list keyed by enum value strings as in
the source dict-of-dicts. -/
def DEFAULT_AUTONOMY_3D : List (String × List (String × AutonomyLevel)) :=
  [("public",
    [("R", .autonomous), ("M", .logged), ("A", .notification),
     ("C", .notification), ("D", .approval)]),
   ("internal",
    [("R", .logged), ("M", .notification), ("A", .approval),
     ("C", .approval), ("D", .elevated_approval)]),
   ("confidential",
    [("R", .notification), ("M", .approval), ("A", .elevated_approval),
     ("C", .elevated_approval), ("D", .prohibited)]),
   ("restricted",
    [("R", .approval), ("M", .elevated_approval), ("A", .prohibited),
     ("C", .prohibited), ("D", .prohibited)])]

/-- Default autonomy for 2D profiles (`DEFAULT_AUTONOMY_2D` in `evaluator.py`). -/
def DEFAULT_AUTONOMY_2D : List (String × AutonomyLevel) :=
  [("R", .logged), ("M", .notification), ("A", .approval),
   ("C", .approval), ("D", .elevated_approval)]

/-- The override-consultation step of `_get_autonomy_level`: the guard
`if self.profile.autonomy_overrides:` (dict truthiness = present and
non-empty), then the shape-dependent key lookup.  For a 3D profile with
no classification the source's `else` branch looks the bare operation
key up in the string-keyed 3D dict, reproduced here verbatim. -/
def overrideLookup (p : Profile) (operation : Operation)
    (dc : Option DataClassification) : Option AutonomyLevel :=
  match p with
  | .threeD q =>
    match q.autonomy_overrides with
    | some ov =>
      if !ov.isEmpty then
        match dc with
        | some c => ov.lookup (c.value ++ "." ++ operation.value)
        | none => ov.lookup operation.value
      else none
    | none => none
  | .twoD q =>
    match q.autonomy_overrides with
    | some ov => if !ov.isEmpty then ov.lookup operation else none
    | none => none

/-- `PolicyEvaluator._get_autonomy_level`: overrides first, then the
default tables, with the source's `.get` fallbacks (`prohibited` for
an unknown 3D cell, `approval` for an unknown 2D key). -/
def getAutonomyLevel (p : Profile) (operation : Operation)
    (dc : Option DataClassification) : AutonomyLevel :=
  match overrideLookup p operation dc with
  | some a => a
  | none =>
    match p with
    | .threeD _ =>
      match dc with
      | some c =>
        (((DEFAULT_AUTONOMY_3D.lookup c.value).getD []).lookup
          operation.value).getD .prohibited
      | none => (DEFAULT_AUTONOMY_2D.lookup operation.value).getD .approval
    | .twoD _ => (DEFAULT_AUTONOMY_2D.lookup operation.value).getD .approval

/-- The trigger-condition gate of `_check_emergency_permission`: with
the source's truthiness guard, the gate can only fail when a trigger is
supplied AND the allow-list is present and non-empty AND the trigger is
not a member. -/
def triggerCheckFails (trigger_conditions : Option (List TriggerCondition))
    (ctx : EvaluationContext) : Bool :=
  match ctx.emergency_trigger, trigger_conditions with
  | some t, some tcs => !tcs.isEmpty && !tcs.contains t
  | _, _ => false

/-- The `escalated_permissions` membership step of
`_check_emergency_permission` for 2D profiles (list truthiness guard,
then membership). -/
def escalatedGrant2D (esc : EmergencyEscalation2D) (operation : Operation) : Bool :=
  match esc.escalated_permissions with
  | some perms => !perms.isEmpty && perms.contains operation
  | none => false

/-- The `escalated_permissions` membership step of
`_check_emergency_permission` for 3D profiles: dict truthiness guard,
then membership in the set keyed by the classification (missing key ⇒
empty list).  With no classification the source falls through every
branch and returns `False`. -/
def escalatedGrant3D (esc : EmergencyEscalation3D) (operation : Operation)
    (dc : Option DataClassification) : Bool :=
  match esc.escalated_permissions with
  | some perms =>
    !perms.isEmpty &&
      (match dc with
       | some c => ((perms.lookup c).getD []).contains operation
       | none => false)
  | none => false

/-- `PolicyEvaluator._check_emergency_permission`. -/
def checkEmergencyPermission (p : Profile) (operation : Operation)
    (dc : Option DataClassification) (ctx : EvaluationContext) : Bool :=
  match p with
  | .twoD q =>
    match q.emergency_escalation with
    | none => false
    | some esc =>
      if !esc.enabled then false
      else if triggerCheckFails esc.trigger_conditions ctx then false
      else escalatedGrant2D esc operation
  | .threeD q =>
    match q.emergency_escalation with
    | none => false
    | some esc =>
      if !esc.enabled then false
      else if triggerCheckFails esc.trigger_conditions ctx then false
      else escalatedGrant3D esc operation dc

/-- The base permission check of `evaluate` (lines 120-128): membership
of the operation in the profile's granted set, per classification for a
3D profile.  The 3D shape with no classification cannot reach this
check (the `ValueError` gate fires first); `false` is the vacuous value. -/
def hasBasePermission (p : Profile) (operation : Operation)
    (dc : Option DataClassification) : Bool :=
  match p with
  | .threeD q =>
    match dc with
    | some c => ((q.permissions.lookup c).getD []).contains operation
    | none => false
  | .twoD q => q.permissions.contains operation

/-- Decimal digit characters to `Nat`, as Python `int()` on the digit
groups produced by the pydantic-validated `HH:MM` pattern. -/
def strToNat (l : List Char) : Nat :=
  l.foldl (fun a c => a * 10 + (c.toNat - 48)) 0

/-- Parse an `HH:MM` string to seconds of day, mirroring
`time(int(parts[0]), int(parts[1]))` built from `s.split(":")` (the
characters before the colon, and those after it, of a pattern-validated
`HH:MM` string).  The `time`-object comparison of the source is
equivalent to comparing seconds of day, since the parsed bounds carry
zero seconds. -/
def parseHM (s : String) : Nat :=
  strToNat (s.data.takeWhile (fun c => c ≠ ':')) * 3600 +
  strToNat ((s.data.dropWhile (fun c => c ≠ ':')).drop 1) * 60

/-- Lowercase full English weekday name of a day index (days since the
Unix epoch, which was a Thursday), as `strftime("%A").lower()`. -/
def weekdayName (dayIdx : Int) : String :=
  match (Int.emod dayIdx 7).toNat with
  | 0 => "thursday"
  | 1 => "friday"
  | 2 => "saturday"
  | 3 => "sunday"
  | 4 => "monday"
  | 5 => "tuesday"
  | _ => "wednesday"

/-- Civil calendar date from a day index (days since the Unix epoch):
the standard era-based conversion used by calendar libraries, giving
`(year, month, day)`. -/
def civilFromDays (z0 : Int) : Int × Nat × Nat :=
  let z := z0 + 719468
  let era : Int := Int.ediv z 146097
  let doe : Nat := (z - era * 146097).toNat
  let yoe : Nat := (doe - doe / 1460 + doe / 36524 - doe / 146096) / 365
  let y : Int := (yoe : Int) + era * 400
  let doy : Nat := doe - (365 * yoe + yoe / 4 - yoe / 100)
  let mp : Nat := (5 * doy + 2) / 153
  let d : Nat := doy - (153 * mp + 2) / 5 + 1
  let m : Nat := if mp < 10 then mp + 3 else mp - 9
  (if m ≤ 2 then y + 1 else y, m, d)

/-- Zero-pad a number to two digits. -/
def pad2 (n : Nat) : String :=
  if n < 10 then "0" ++ toString n else toString n

/-- Zero-pad a year to four digits (all reachable years are positive). -/
def pad4 (n : Int) : String :=
  let s := toString n.toNat
  if n.toNat < 10 then "000" ++ s
  else if n.toNat < 100 then "00" ++ s
  else if n.toNat < 1000 then "0" ++ s
  else s

/-- ISO 8601 `YYYY-MM-DD` string of a day index, as
`local_time.date().isoformat()`. -/
def isoDate (dayIdx : Int) : String :=
  match civilFromDays dayIdx with
  | (y, m, d) => pad4 y ++ "-" ++ pad2 m ++ "-" ++ pad2 d

/-- Effective timezone name: `ZoneInfo(tw.timezone) if tw.timezone else
ZoneInfo("UTC")` (empty string is falsy). -/
def TimeWindows.tzName (tw : TimeWindows) : String :=
  if tw.timezone = "" then "UTC" else tw.timezone

/-- Local instant in seconds after applying the zone offset, modelling
`timestamp.astimezone(tz)`. -/
def TimeWindows.localSecs (tw : TimeWindows) (timestamp : Int)
    (tzdb : String → Int) : Int :=
  timestamp + tzdb tw.tzName

/-- Local day index (days since epoch) of the converted instant. -/
def localDayIdx (tw : TimeWindows) (timestamp : Int) (tzdb : String → Int) : Int :=
  Int.ediv (tw.localSecs timestamp tzdb) 86400

/-- Local time of day, in seconds, of the converted instant. -/
def localSecsOfDay (tw : TimeWindows) (timestamp : Int) (tzdb : String → Int) : Nat :=
  (Int.emod (tw.localSecs timestamp tzdb) 86400).toNat

/-- The `allowed_days` sub-check of `_check_time_windows` (list
truthiness guard, then weekday-name membership). -/
def checkAllowedDays (tw : TimeWindows) (dayIdx : Int) : Option String :=
  match tw.allowed_days with
  | some days =>
    if !days.isEmpty then
      if !days.contains (weekdayName dayIdx) then
        some ("Operations not permitted on " ++ weekdayName dayIdx)
      else none
    else none
  | none => none

/-- The `allowed_hours` sub-check of `_check_time_windows`: blocked
unless `start_time <= current_time <= end_time` (inclusive). -/
def checkAllowedHours (tw : TimeWindows) (secsOfDay : Nat) : Option String :=
  match tw.allowed_hours with
  | some ah =>
    if parseHM ah.start ≤ secsOfDay ∧ secsOfDay ≤ parseHM ah.«end» then none
    else
      some ("Operations only permitted between " ++ ah.start ++ " and " ++ ah.«end»)
  | none => none

/-- The `blackout_dates` sub-check of `_check_time_windows` (list
truthiness guard, then ISO-date membership). -/
def checkBlackoutDates (tw : TimeWindows) (dayIdx : Int) : Option String :=
  match tw.blackout_dates with
  | some dates =>
    if !dates.isEmpty then
      if dates.contains (isoDate dayIdx) then
        some ("Operations blocked on blackout date " ++ isoDate dayIdx)
      else none
    else none
  | none => none

/-- `PolicyEvaluator._check_time_windows`: timezone conversion, then the
day, hours, and blackout sub-checks in source order, first failure wins. -/
def checkTimeWindows (tw? : Option TimeWindows) (timestamp : Int)
    (tzdb : String → Int) : Option String :=
  match tw? with
  | none => none
  | some tw =>
    match checkAllowedDays tw (localDayIdx tw timestamp tzdb) with
    | some r => some r
    | none =>
      match checkAllowedHours tw (localSecsOfDay tw timestamp tzdb) with
      | some r => some r
      | none => checkBlackoutDates tw (localDayIdx tw timestamp tzdb)

/-- The environment sub-check of `_check_constraints`: blocked only when
the allow-list is present and non-empty, a context environment is
supplied, and it is not a member. -/
def checkEnvironment (cs : Constraints) (ctx : EvaluationContext) : Option String :=
  match cs.environments, ctx.environment with
  | some envs, some e =>
    if !envs.isEmpty && !envs.contains e then
      some ("Environment " ++ e.value ++ " not permitted")
    else none
  | _, _ => none

/-- `PolicyEvaluator._check_constraints`: environment first, then time
windows; absent blocks never restrict.  (The source's unused `operation`
parameter is dropped.) -/
def checkConstraints (cs? : Option Constraints) (ctx : EvaluationContext)
    (tzdb : String → Int) : Option String :=
  match cs? with
  | none => none
  | some cs =>
    match checkEnvironment cs ctx with
    | some r => some r
    | none => checkTimeWindows cs.time_windows ctx.timestamp tzdb

/-- `autonomy in [APPROVAL, ELEVATED_APPROVAL]` in `evaluate`. -/
def requiresApproval (a : AutonomyLevel) : Bool :=
  [AutonomyLevel.approval, AutonomyLevel.elevated_approval].contains a

/-- `autonomy in [NOTIFICATION, APPROVAL, ELEVATED_APPROVAL]` in `evaluate`. -/
def requiresNotification (a : AutonomyLevel) : Bool :=
  [AutonomyLevel.notification, AutonomyLevel.approval,
   AutonomyLevel.elevated_approval].contains a

/-- Steps 2-7 of `PolicyEvaluator.evaluate` (everything after the input
gate): base permission, emergency path, autonomy resolution, constraint
check, prohibited check, accept.  Decision fields omitted by a source
branch take the pydantic defaults, exactly as in the source. -/
def decidePolicy (p : Profile) (operation : Operation)
    (dc : Option DataClassification) (context : EvaluationContext)
    (tzdb : String → Int) : PolicyDecision :=
  let base := hasBasePermission p operation dc
  if base || (context.emergency_active &&
      checkEmergencyPermission p operation dc context) then
    let constraints_applied : List String :=
      if base then [] else ["emergency_escalation"]
    let autonomy := getAutonomyLevel p operation dc
    match checkConstraints p.constraints context tzdb with
    | some reason =>
      { allowed := false
        operation := operation
        data_classification := dc
        autonomy_level := autonomy
        requires_approval := requiresApproval autonomy
        requires_notification := requiresNotification autonomy
        blocked_reason := some reason
        constraints_applied := constraints_applied ++ ["constraints"]
        emergency_mode := context.emergency_active }
    | none =>
      if autonomy = AutonomyLevel.prohibited then
        { allowed := false
          operation := operation
          data_classification := dc
          autonomy_level := autonomy
          requires_approval := false
          requires_notification := false
          blocked_reason := some "Operation prohibited by autonomy policy"
          constraints_applied := constraints_applied
          emergency_mode := context.emergency_active }
      else
        { allowed := true
          operation := operation
          data_classification := dc
          autonomy_level := autonomy
          requires_approval := requiresApproval autonomy
          requires_notification := requiresNotification autonomy
          blocked_reason := none
          constraints_applied := constraints_applied
          emergency_mode := context.emergency_active }
  else
    { allowed := false
      operation := operation
      data_classification := dc
      autonomy_level := AutonomyLevel.prohibited
      requires_approval := false
      requires_notification := false
      blocked_reason :=
        some ("Operation " ++ operation.value ++ " not permitted for this profile")
      constraints_applied := []
      emergency_mode := false }

/-- `PolicyEvaluator.evaluate`: the single input-validation gate (a 3D
profile with no classification raises `ValueError`), then the decision
pipeline. -/
def evaluate (p : Profile) (operation : Operation)
    (dc : Option DataClassification) (context : EvaluationContext)
    (tzdb : String → Int) : Except String PolicyDecision :=
  match p, dc with
  | .threeD _, none =>
    Except.error "data_classification is required for 3D profiles"
  | p', dc' => Except.ok (decidePolicy p' operation dc' context tzdb)

/-! ## Spec-side reference tables

These two definitions are written from the specification's §4.2 default
tables (not from the source) and exist only to be compared against the
source's tables. -/

/-- The spec's §4.2 3D default table, cell by cell. -/
def specDefault3D : DataClassification → Operation → AutonomyLevel
  | .public, .R => .autonomous
  | .public, .M => .logged
  | .public, .A => .notification
  | .public, .C => .notification
  | .public, .D => .approval
  | .internal, .R => .logged
  | .internal, .M => .notification
  | .internal, .A => .approval
  | .internal, .C => .approval
  | .internal, .D => .elevated_approval
  | .confidential, .R => .notification
  | .confidential, .M => .approval
  | .confidential, .A => .elevated_approval
  | .confidential, .C => .elevated_approval
  | .confidential, .D => .prohibited
  | .restricted, .R => .approval
  | .restricted, .M => .elevated_approval
  | .restricted, .A => .prohibited
  | .restricted, .C => .prohibited
  | .restricted, .D => .prohibited

/-- The spec's §4.2 2D default table. -/
def specDefault2D : Operation → AutonomyLevel
  | .R => .logged
  | .M => .notification
  | .A => .approval
  | .C => .approval
  | .D => .elevated_approval

/-! ## Helper lemmas -/

/-- A successful association-list lookup forces a non-empty list. -/
theorem lookup_isEmpty_false {α β : Type} [BEq α] {l : List (α × β)} {k : α}
    {b : β} (h : l.lookup k = some b) : l.isEmpty = false := by
  cases l with
  | nil => simp [List.lookup] at h
  | cons x xs => rfl

/-- An `Except.ok` result of `evaluate` is exactly the decision pipeline's
output. -/
theorem evaluate_ok (p : Profile) (operation : Operation)
    (dc : Option DataClassification) (ctx : EvaluationContext)
    (tzdb : String → Int) (d : PolicyDecision)
    (h : evaluate p operation dc ctx tzdb = Except.ok d) :
    d = decidePolicy p operation dc ctx tzdb := by
  cases p with
  | twoD q =>
    simp only [evaluate] at h
    exact (Except.ok.inj h).symm
  | threeD q =>
    cases dc with
    | none => exact Except.noConfusion h
    | some c =>
      simp only [evaluate] at h
      exact (Except.ok.inj h).symm

/-! ## Claims -/

/-- C3: for every (operation, classification) pair with no matching
`autonomy_overrides` entry, autonomy resolution returns exactly the
spec's §4.2 default-table entry — all 20 cells of the 3D matrix and all
5 cells of the 2D table (the quantifiers over the fixed enums cover
every cell). -/
theorem c3_default_autonomy_cells :
    (∀ (q : Profile3D) (c : DataClassification) (op : Operation),
      (∀ ov, q.autonomy_overrides = some ov →
        ov.lookup (c.value ++ "." ++ op.value) = none) →
      getAutonomyLevel (.threeD q) op (some c) = specDefault3D c op)
  ∧ (∀ (q : Profile2D) (op : Operation),
      (∀ ov, q.autonomy_overrides = some ov → ov.lookup op = none) →
      getAutonomyLevel (.twoD q) op none = specDefault2D op) := by
  constructor
  · intro q c op h
    have hov : overrideLookup (.threeD q) op (some c) = none := by
      simp only [overrideLookup]
      cases hq : q.autonomy_overrides with
      | none => rfl
      | some ov => simp [h ov hq]
    unfold getAutonomyLevel
    rw [hov]
    cases c <;> cases op <;> rfl
  · intro q op h
    have hov : overrideLookup (.twoD q) op none = none := by
      simp only [overrideLookup]
      cases hq : q.autonomy_overrides with
      | none => rfl
      | some ov => simp [h ov hq]
    unfold getAutonomyLevel
    rw [hov]
    cases op <;> rfl

/-- Witness profiles with no overrides at all. -/
def c3Profile3 : Profile3D := { permissions := [(.public, [.R])] }

/-- Witness 2D profile with no overrides. -/
def c3Profile2 : Profile2D := { permissions := [.R] }

/-- Witness for C3 at two concrete cells. -/
theorem c3_default_autonomy_cells_witness :
    getAutonomyLevel (.threeD c3Profile3) .R (some .public) = specDefault3D .public .R ∧
    getAutonomyLevel (.twoD c3Profile2) .D none = specDefault2D .D :=
  ⟨c3_default_autonomy_cells.1 c3Profile3 .public .R
      (fun _ hov => Option.noConfusion hov),
   c3_default_autonomy_cells.2 c3Profile2 .D
      (fun _ hov => Option.noConfusion hov)⟩

/-- C4: a matching `autonomy_overrides` entry (3D composite key
`"classification.operation"`, 2D key the operation) is returned exactly
as stored, for an arbitrary override value — nothing validates it
against the default ordering. -/
theorem c4_override_precedence :
    (∀ (q : Profile3D) (ov : List (String × AutonomyLevel))
        (c : DataClassification) (op : Operation) (a : AutonomyLevel),
      q.autonomy_overrides = some ov →
      ov.lookup (c.value ++ "." ++ op.value) = some a →
      getAutonomyLevel (.threeD q) op (some c) = a)
  ∧ (∀ (q : Profile2D) (ov : List (Operation × AutonomyLevel))
        (op : Operation) (dc : Option DataClassification) (a : AutonomyLevel),
      q.autonomy_overrides = some ov →
      ov.lookup op = some a →
      getAutonomyLevel (.twoD q) op dc = a) := by
  constructor
  · intro q ov c op a hq hk
    have hov : overrideLookup (.threeD q) op (some c) = some a := by
      simp only [overrideLookup]
      rw [hq]
      simp [lookup_isEmpty_false hk, hk]
    unfold getAutonomyLevel
    rw [hov]
  · intro q ov op dc a hq hk
    have hov : overrideLookup (.twoD q) op dc = some a := by
      simp only [overrideLookup]
      rw [hq]
      simp [lookup_isEmpty_false hk, hk]
    unfold getAutonomyLevel
    rw [hov]

/-- Witness 3D profile for C4: Scenario F's `"internal.C" = autonomous`
override (less restrictive than the `approval` default). -/
def c4Profile3 : Profile3D :=
  { permissions := [(.internal, [.C])]
    autonomy_overrides := some [("internal.C", .autonomous)] }

/-- Witness 2D profile for C4: an override more restrictive than the
default (`R` forced to `prohibited` instead of `logged`). -/
def c4Profile2 : Profile2D :=
  { permissions := [.R]
    autonomy_overrides := some [(.R, .prohibited)] }

/-- Witness for C4 in both directions. -/
theorem c4_override_precedence_witness :
    getAutonomyLevel (.threeD c4Profile3) .C (some .internal) = .autonomous ∧
    getAutonomyLevel (.twoD c4Profile2) .R none = .prohibited :=
  ⟨c4_override_precedence.1 c4Profile3 [("internal.C", .autonomous)]
      .internal .C .autonomous rfl rfl,
   c4_override_precedence.2 c4Profile2 [(.R, .prohibited)] .R none .prohibited
      rfl rfl⟩

/-- C6: evaluation is deterministic — equal inputs (profile, operation,
classification, context, timezone database) give an identical
`PolicyDecision` in every field; no hidden state or wall clock enters. -/
theorem c6_evaluate_deterministic (p : Profile) (operation : Operation)
    (dc : Option DataClassification) (ctx1 ctx2 : EvaluationContext)
    (tzdb1 tzdb2 : String → Int)
    (hc : ctx1 = ctx2) (ht : ∀ s, tzdb1 s = tzdb2 s) :
    evaluate p operation dc ctx1 tzdb1 = evaluate p operation dc ctx2 tzdb2 := by
  subst hc
  rw [funext ht]

/-- Witness for C6 at a concrete input. -/
theorem c6_evaluate_deterministic_witness :
    evaluate (.twoD c3Profile2) .R none { timestamp := 0 } (fun _ => 0) =
    evaluate (.twoD c3Profile2) .R none { timestamp := 0 } (fun _ => 0) :=
  c6_evaluate_deterministic (.twoD c3Profile2) .R none _ _ _ _ rfl (fun _ => rfl)

/-- C7: evaluating a 3D profile with no data classification is rejected
with the input error and no decision (partial or otherwise) is
produced — the single validation precondition gate. -/
theorem c7_threeD_requires_classification (q : Profile3D)
    (operation : Operation) (ctx : EvaluationContext) (tzdb : String → Int) :
    evaluate (.threeD q) operation none ctx tzdb =
      Except.error "data_classification is required for 3D profiles" := rfl

/-- 3D profile for C1: escalation enabled, a non-empty
`trigger_conditions` allow-list, and `C` on `public` escalatable. -/
def c1Profile : Profile3D :=
  { permissions := [(.public, [.R])]
    emergency_escalation := some
      { enabled := true
        trigger_conditions := some [.soc_declared_incident]
        escalated_permissions := some [(.public, [.R, .C])] } }

/-- Context for C1: emergency active but no trigger supplied. -/
def c1Ctx : EvaluationContext := { timestamp := 0, emergency_active := true }

/-- C1 counterexample: with a non-empty trigger allow-list and
`emergency_active = true` but no `emergency_trigger`, the escalation
check returns `true` and the evaluation grants the operation — not the
denial the claim asserts.  (The source's guard
`if context.emergency_trigger and escalation.trigger_conditions:` skips
the membership test entirely when no trigger is supplied.) -/
theorem c1_counterexample :
    c1Ctx.emergency_active = true ∧
    c1Ctx.emergency_trigger = none ∧
    c1Profile.emergency_escalation = some
      { enabled := true
        trigger_conditions := some [.soc_declared_incident]
        escalated_permissions := some [(.public, [.R, .C])] } ∧
    checkEmergencyPermission (.threeD c1Profile) .C (some .public) c1Ctx = true ∧
    evaluate (.threeD c1Profile) .C (some .public) c1Ctx (fun _ => 0) =
      Except.ok
        { allowed := true
          operation := .C
          data_classification := some .public
          autonomy_level := .notification
          requires_approval := false
          requires_notification := true
          blocked_reason := none
          constraints_applied := ["emergency_escalation"]
          emergency_mode := true } :=
  ⟨rfl, rfl, rfl, rfl, rfl⟩

/-- The escalated-permission grant alone: `enabled` plus membership in
the escalated permissions, with no reference to trigger conditions. -/
def escalatedGrant (p : Profile) (operation : Operation)
    (dc : Option DataClassification) : Bool :=
  match p with
  | .twoD q =>
    match q.emergency_escalation with
    | some esc => esc.enabled && escalatedGrant2D esc operation
    | none => false
  | .threeD q =>
    match q.emergency_escalation with
    | some esc => esc.enabled && escalatedGrant3D esc operation dc
    | none => false

/-- C1 amended: when no `emergency_trigger` is supplied, the trigger
allow-list is ignored entirely — the escalation check is then exactly
"escalation enabled and the operation is in the escalated permissions",
whether or not a non-empty `trigger_conditions` allow-list exists.  The
membership requirement applies only when a trigger is supplied. -/
theorem c1_trigger_list_ignored_without_trigger (p : Profile)
    (operation : Operation) (dc : Option DataClassification)
    (ctx : EvaluationContext) (h : ctx.emergency_trigger = none) :
    checkEmergencyPermission p operation dc ctx = escalatedGrant p operation dc := by
  have htf : ∀ tcs, triggerCheckFails tcs ctx = false := by
    intro tcs
    simp only [triggerCheckFails]
    rw [h]
  cases p with
  | twoD q =>
    simp only [checkEmergencyPermission, escalatedGrant]
    cases q.emergency_escalation with
    | none => rfl
    | some esc => cases he : esc.enabled <;> simp [htf, he]
  | threeD q =>
    simp only [checkEmergencyPermission, escalatedGrant]
    cases q.emergency_escalation with
    | none => rfl
    | some esc => cases he : esc.enabled <;> simp [htf, he]

/-- Witness for the amended C1 at the concrete counterexample input. -/
theorem c1_trigger_list_ignored_without_trigger_witness :
    c1Ctx.emergency_trigger = none ∧
    checkEmergencyPermission (.threeD c1Profile) .C (some .public) c1Ctx =
      escalatedGrant (.threeD c1Profile) .C (some .public) :=
  ⟨rfl, c1_trigger_list_ignored_without_trigger (.threeD c1Profile) .C
      (some .public) c1Ctx rfl⟩

/-- 2D profile for C2: `M` is not granted and no escalation exists. -/
def c2Profile : Profile2D := { permissions := [.R] }

/-- Context for C2: emergency active. -/
def c2Ctx : EvaluationContext := { timestamp := 0, emergency_active := true }

/-- C2 counterexample: in the base-permission-denied branch the decision
carries `emergency_mode = false` even though
`context.emergency_active = true` — the field does not mirror the
context there (the source omits `emergency_mode` in that constructor,
so the pydantic default `False` applies). -/
theorem c2_counterexample :
    c2Ctx.emergency_active = true ∧
    evaluate (.twoD c2Profile) .M none c2Ctx (fun _ => 0) =
      Except.ok
        { allowed := false
          operation := .M
          data_classification := none
          autonomy_level := .prohibited
          requires_approval := false
          requires_notification := false
          blocked_reason := some "Operation M not permitted for this profile"
          constraints_applied := []
          emergency_mode := false } :=
  ⟨rfl, rfl⟩

/-- C2 amended: `emergency_mode` equals `context.emergency_active` in
every terminal outcome except the base-permission-denied branch, where
it is always `false`; equivalently, it equals `emergency_active`
conjoined with the evaluation having passed the permission gate (base
grant or emergency escalation). -/
theorem c2_emergency_mode_mirrors_when_permitted (p : Profile)
    (operation : Operation) (dc : Option DataClassification)
    (ctx : EvaluationContext) (tzdb : String → Int) (d : PolicyDecision)
    (h : evaluate p operation dc ctx tzdb = Except.ok d) :
    d.emergency_mode =
      ((hasBasePermission p operation dc ||
        (ctx.emergency_active && checkEmergencyPermission p operation dc ctx)) &&
       ctx.emergency_active) := by
  have hd := evaluate_ok p operation dc ctx tzdb d h
  subst hd
  simp only [decidePolicy]
  split
  next hcond =>
    split
    · simp [hcond]
    · split <;> simp [hcond]
  next hcond =>
    rw [Bool.not_eq_true] at hcond
    simp [hcond]

/-- Witness for the amended C2: a permitted operation under an active
emergency reports `emergency_mode = true`, matching the formula. -/
theorem c2_emergency_mode_mirrors_when_permitted_witness :
    PolicyDecision.emergency_mode
      { allowed := true
        operation := .R
        data_classification := none
        autonomy_level := .logged
        requires_approval := false
        requires_notification := false
        blocked_reason := none
        constraints_applied := []
        emergency_mode := true } =
      ((hasBasePermission (.twoD c2Profile) .R none ||
        (c2Ctx.emergency_active &&
         checkEmergencyPermission (.twoD c2Profile) .R none c2Ctx)) &&
       c2Ctx.emergency_active) :=
  c2_emergency_mode_mirrors_when_permitted (.twoD c2Profile) .R none c2Ctx
    (fun _ => 0) _ rfl

/-- Constraint checking reads only the timestamp and environment of the
context: changing the emergency fields cannot change its outcome. -/
theorem checkConstraints_emergency_independent (cs? : Option Constraints)
    (ctx : EvaluationContext) (ea : Bool) (et : Option TriggerCondition)
    (tzdb : String → Int) :
    checkConstraints cs?
        { ctx with emergency_active := ea, emergency_trigger := et } tzdb =
      checkConstraints cs? ctx tzdb := by
  cases cs? with
  | none => rfl
  | some cs => rfl

/-- C5: if the base permission check succeeds, the emergency fields of
the context never change `allowed` — for any two contexts that differ
only in `emergency_active` and `emergency_trigger`, evaluation returns
decisions with the same `allowed` value. -/
theorem c5_emergency_never_changes_allowed_when_granted (p : Profile)
    (operation : Operation) (dc : Option DataClassification)
    (ctx : EvaluationContext) (ea : Bool) (et : Option TriggerCondition)
    (tzdb : String → Int)
    (hperm : hasBasePermission p operation dc = true) :
    ∃ d1 d2,
      evaluate p operation dc ctx tzdb = Except.ok d1 ∧
      evaluate p operation dc
          { ctx with emergency_active := ea, emergency_trigger := et } tzdb =
        Except.ok d2 ∧
      d1.allowed = d2.allowed := by
  have key : (decidePolicy p operation dc ctx tzdb).allowed =
      (decidePolicy p operation dc
        { ctx with emergency_active := ea, emergency_trigger := et } tzdb).allowed := by
    simp only [decidePolicy, hperm, Bool.true_or, if_true,
      checkConstraints_emergency_independent]
    split
    · rfl
    · split <;> rfl
  cases p with
  | twoD q => exact ⟨_, _, rfl, rfl, key⟩
  | threeD q =>
    cases dc with
    | none => simp [hasBasePermission] at hperm
    | some c => exact ⟨_, _, rfl, rfl, key⟩

/-- Witness for C5 at a concrete input (2D profile granting `R`, base
context vs. emergency-active context). -/
theorem c5_emergency_never_changes_allowed_when_granted_witness :
    hasBasePermission (.twoD c3Profile2) .R none = true ∧
    ∃ d1 d2,
      evaluate (.twoD c3Profile2) .R none { timestamp := 0 } (fun _ => 0) =
        Except.ok d1 ∧
      evaluate (.twoD c3Profile2) .R none
          { { timestamp := 0 : EvaluationContext } with
            emergency_active := true,
            emergency_trigger := some .soc_declared_incident } (fun _ => 0) =
        Except.ok d2 ∧
      d1.allowed = d2.allowed :=
  ⟨rfl, c5_emergency_never_changes_allowed_when_granted (.twoD c3Profile2) .R
      none { timestamp := 0 } true (some .soc_declared_incident) (fun _ => 0) rfl⟩

/-- C8: a decision with `allowed = true` (only the accept state produces
one) carries the resolved autonomy level, requires approval exactly for
`approval`/`elevated_approval`, and requires notification exactly for
`notification`/`approval`/`elevated_approval`. -/
theorem c8_accept_flags (p : Profile) (operation : Operation)
    (dc : Option DataClassification) (ctx : EvaluationContext)
    (tzdb : String → Int) (d : PolicyDecision)
    (h : evaluate p operation dc ctx tzdb = Except.ok d)
    (ha : d.allowed = true) :
    d.autonomy_level = getAutonomyLevel p operation dc ∧
    (d.requires_approval = true ↔
      (d.autonomy_level = AutonomyLevel.approval ∨
       d.autonomy_level = AutonomyLevel.elevated_approval)) ∧
    (d.requires_notification = true ↔
      (d.autonomy_level = AutonomyLevel.notification ∨
       d.autonomy_level = AutonomyLevel.approval ∨
       d.autonomy_level = AutonomyLevel.elevated_approval)) := by
  have hd := evaluate_ok p operation dc ctx tzdb d h
  subst hd
  simp only [decidePolicy] at ha ⊢
  split at ha
  next hcond =>
    split at ha
    next hr => simp at ha
    next hr =>
      split at ha
      next hp => simp at ha
      next hp =>
        simp only [hcond, if_true, hr, hp]
        refine ⟨rfl, ?_, ?_⟩ <;>
          cases hA : getAutonomyLevel p operation dc <;>
            simp [requiresApproval, requiresNotification, hA]
  next hcond => simp at ha

/-- C9: on a profile whose constraints declare `allowed_hours`, an
otherwise-permitted operation evaluated at an instant whose local
time-of-day falls outside the inclusive `[start, end]` interval is
denied with the "only permitted between" reason, while a local time
exactly equal to `start` or `end` passes the hours check. -/
theorem c9_allowed_hours_window (p : Profile) (operation : Operation)
    (dc : Option DataClassification) (ctx : EvaluationContext)
    (tzdb : String → Int) (cs : Constraints) (tw : TimeWindows)
    (ah : AllowedHours)
    (hcs : p.constraints = some cs) (htw : cs.time_windows = some tw)
    (hah : tw.allowed_hours = some ah)
    (hperm : hasBasePermission p operation dc = true)
    (henv : checkEnvironment cs ctx = none)
    (hday : checkAllowedDays tw (localDayIdx tw ctx.timestamp tzdb) = none) :
    (¬ (parseHM ah.start ≤ localSecsOfDay tw ctx.timestamp tzdb ∧
        localSecsOfDay tw ctx.timestamp tzdb ≤ parseHM ah.«end») →
      evaluate p operation dc ctx tzdb = Except.ok
        { allowed := false
          operation := operation
          data_classification := dc
          autonomy_level := getAutonomyLevel p operation dc
          requires_approval := requiresApproval (getAutonomyLevel p operation dc)
          requires_notification :=
            requiresNotification (getAutonomyLevel p operation dc)
          blocked_reason := some ("Operations only permitted between " ++
            ah.start ++ " and " ++ ah.«end»)
          constraints_applied := ["constraints"]
          emergency_mode := ctx.emergency_active })
    ∧ ((localSecsOfDay tw ctx.timestamp tzdb = parseHM ah.start ∨
        localSecsOfDay tw ctx.timestamp tzdb = parseHM ah.«end») →
       parseHM ah.start ≤ parseHM ah.«end» →
       checkAllowedHours tw (localSecsOfDay tw ctx.timestamp tzdb) = none) := by
  constructor
  · intro hout
    have hhours : checkAllowedHours tw (localSecsOfDay tw ctx.timestamp tzdb) =
        some ("Operations only permitted between " ++ ah.start ++ " and " ++
          ah.«end») := by
      simp only [checkAllowedHours]
      rw [hah]
      simp [hout]
    have hcc : checkConstraints p.constraints ctx tzdb =
        some ("Operations only permitted between " ++ ah.start ++ " and " ++
          ah.«end») := by
      rw [hcs]
      simp only [checkConstraints]
      rw [henv, htw]
      simp only [checkTimeWindows]
      rw [hday, hhours]
    have key : decidePolicy p operation dc ctx tzdb =
        { allowed := false
          operation := operation
          data_classification := dc
          autonomy_level := getAutonomyLevel p operation dc
          requires_approval := requiresApproval (getAutonomyLevel p operation dc)
          requires_notification :=
            requiresNotification (getAutonomyLevel p operation dc)
          blocked_reason := some ("Operations only permitted between " ++
            ah.start ++ " and " ++ ah.«end»)
          constraints_applied := ["constraints"]
          emergency_mode := ctx.emergency_active } := by
      simp only [decidePolicy, hperm, Bool.true_or, if_true, hcc,
        List.nil_append]
    cases p with
    | twoD q => simp only [evaluate, key]
    | threeD q =>
      cases dc with
      | none => simp [hasBasePermission] at hperm
      | some c => simp only [evaluate, key]
  · intro hb hse
    simp only [checkAllowedHours]
    rw [hah]
    rcases hb with hb | hb <;> simp [hb, hse]

/-- 2D witness profile for C9 (Scenario E): business hours 09:00-17:00
in the default timezone. -/
def c9Profile : Profile2D :=
  { permissions := [.R]
    constraints := some
      { time_windows := some
          { allowed_hours := some { start := "09:00", «end» := "17:00" } } } }

/-- Witness context for C9: `2024-01-01T20:00:00Z`. -/
def c9Ctx : EvaluationContext := { timestamp := 1704139200 }

set_option maxRecDepth 4096 in
/-- Witness for C9 at Scenario E: evaluation at 20:00 UTC is blocked
with the "only permitted between 09:00 and 17:00" reason. -/
theorem c9_allowed_hours_window_witness :
    evaluate (.twoD c9Profile) .R none c9Ctx (fun _ => 0) = Except.ok
      { allowed := false
        operation := .R
        data_classification := none
        autonomy_level := getAutonomyLevel (.twoD c9Profile) .R none
        requires_approval := requiresApproval (getAutonomyLevel (.twoD c9Profile) .R none)
        requires_notification :=
          requiresNotification (getAutonomyLevel (.twoD c9Profile) .R none)
        blocked_reason := some "Operations only permitted between 09:00 and 17:00"
        constraints_applied := ["constraints"]
        emergency_mode := c9Ctx.emergency_active } :=
  (c9_allowed_hours_window (.twoD c9Profile) .R none c9Ctx (fun _ => 0)
      { time_windows := some
          { allowed_hours := some { start := "09:00", «end» := "17:00" } } }
      { allowed_hours := some { start := "09:00", «end» := "17:00" } }
      { start := "09:00", «end» := "17:00" }
      rfl rfl rfl rfl rfl rfl).1 (by decide)

/-- The 2D decision pipeline threads the classification argument only
into the decision's `data_classification` field: every other field is
computed exactly as with no classification. -/
theorem decidePolicy_twoD_dc (q : Profile2D) (operation : Operation)
    (dc : Option DataClassification) (ctx : EvaluationContext)
    (tzdb : String → Int) :
    decidePolicy (.twoD q) operation dc ctx tzdb =
      { decidePolicy (.twoD q) operation none ctx tzdb with
        data_classification := dc } := by
  have hb : hasBasePermission (.twoD q) operation dc =
      hasBasePermission (.twoD q) operation none := rfl
  have he : checkEmergencyPermission (.twoD q) operation dc ctx =
      checkEmergencyPermission (.twoD q) operation none ctx := rfl
  have ha : getAutonomyLevel (.twoD q) operation dc =
      getAutonomyLevel (.twoD q) operation none := rfl
  simp only [decidePolicy, hb, he, ha]
  split
  · split
    · rfl
    · split <;> rfl
  · rfl

/-- C10: on a 2D profile the classification argument never affects the
outcome — any two classification arguments (including none) give
decisions identical in every field except `data_classification`, which
echoes the supplied value verbatim. -/
theorem c10_twoD_ignores_classification (q : Profile2D)
    (operation : Operation) (dc1 dc2 : Option DataClassification)
    (ctx : EvaluationContext) (tzdb : String → Int) :
    ∃ d1 d2,
      evaluate (.twoD q) operation dc1 ctx tzdb = Except.ok d1 ∧
      evaluate (.twoD q) operation dc2 ctx tzdb = Except.ok d2 ∧
      d1.data_classification = dc1 ∧
      d2.data_classification = dc2 ∧
      { d1 with data_classification := none } =
        { d2 with data_classification := none } := by
  refine ⟨_, _, rfl, rfl, ?_, ?_, ?_⟩
  · rw [decidePolicy_twoD_dc]
  · rw [decidePolicy_twoD_dc]
  · rw [decidePolicy_twoD_dc q operation dc1 ctx tzdb,
        decidePolicy_twoD_dc q operation dc2 ctx tzdb]

/-- The concrete accepted decision used by the C8 witness. -/
def c8Decision : PolicyDecision :=
  { allowed := true
    operation := .R
    data_classification := none
    autonomy_level := .logged
    requires_approval := false
    requires_notification := false
    blocked_reason := none
    constraints_applied := []
    emergency_mode := false }

/-- Witness for C8 at a concrete accepted evaluation (2D profile
granting `R`, default-table autonomy `logged`). -/
theorem c8_accept_flags_witness :
    c8Decision.autonomy_level = getAutonomyLevel (.twoD c3Profile2) .R none ∧
    (c8Decision.requires_approval = true ↔
      (c8Decision.autonomy_level = AutonomyLevel.approval ∨
       c8Decision.autonomy_level = AutonomyLevel.elevated_approval)) ∧
    (c8Decision.requires_notification = true ↔
      (c8Decision.autonomy_level = AutonomyLevel.notification ∨
       c8Decision.autonomy_level = AutonomyLevel.approval ∨
       c8Decision.autonomy_level = AutonomyLevel.elevated_approval)) :=
  c8_accept_flags (.twoD c3Profile2) .R none { timestamp := 0 } (fun _ => 0)
    c8Decision rfl rfl
